import Mathlib

/-!
# Minto Payment Gateway — verification of the spec against the source

Shallow embedding of `src/routes/marz.py`, `src/main.py` and `src/config.py`
(a FastAPI payment gateway in Python).  Python strings are modelled as
`List Char`; Python exceptions as `Except`; the outbound HTTP layer as an
oracle function passed to the handler, so that "no network call is made" is
expressed as independence from the oracle.

`Char.isDigit` models Python's `str.isdigit` restricted to ASCII digits
(the claims under study do not depend on non-ASCII Unicode digit
characters).
-/

set_option autoImplicit false

namespace MintoGateway

/-- Python strings, modelled as lists of characters. -/
abbrev Str := List Char

/-- Conversion from a Lean string literal to the model type. -/
def strOf (s : String) : Str := s.data

/-- Python `s.startswith(pat)` on our model: first argument the string,
second the pattern. -/
def pyStartsWith : Str → Str → Bool
  | _, [] => true
  | [], _ :: _ => false
  | c :: cs, p :: ps => c = p && pyStartsWith cs ps

/-- Python `s.isdigit()` on a whole string: true iff the string is
non-empty and every character is a digit. -/
def pyIsDigitStr (s : Str) : Bool :=
  !s.isEmpty && s.all Char.isDigit

/-- `marz.py` line 41 (also 206, 277): the cleaning step of the phone
validator, `"".join(char for char in v if char.isdigit() or char == "+")`.
Note that it keeps EVERY plus sign, wherever it occurs, not only a leading
one. -/
def cleanPhone (v : Str) : Str :=
  v.filter (fun c => c.isDigit || c = '+')

/-- Error message of the classification failure branch of the phone
validator (`marz.py` lines 52-55). -/
def phoneFormatErr : Str :=
  strOf ("Invalid phone number format. " ++
    "Accepted formats: +256xxxxxxxxx, 256xxxxxxxxx, 0xxxxxxxxx, or xxxxxxxxx")

/-- Error message of the country re-check (`marz.py` lines 57-58). -/
def phoneCountryErr : Str :=
  strOf "Phone number must be a valid Ugandan number"

/-- Error message of the length re-check (`marz.py` lines 60-63); the
argument is Python's `len(phone) - 4`. -/
def phoneLenErr (n : Nat) : Str :=
  strOf ("Invalid phone number length. Expected 9 digits after country code, got "
    ++ toString n)

/-- Error message of the digits re-check (`marz.py` lines 65-66). -/
def phoneDigitsErr : Str :=
  strOf "Phone number must contain only digits after country code"

/-- `marz.py` lines 43-55: the if/elif classification chain of
`validate_phone_number`, applied to the cleaned string. -/
def classifyPhone (cleaned : Str) : Except Str Str :=
  if pyStartsWith cleaned (strOf "+256") then .ok cleaned
  else if pyStartsWith cleaned (strOf "256") then .ok ('+' :: cleaned)
  else if pyStartsWith cleaned (strOf "0") then .ok (strOf "+256" ++ cleaned.drop 1)
  else if cleaned.length = 9 then .ok (strOf "+256" ++ cleaned)
  else .error phoneFormatErr

/-- `marz.py` lines 57-68: the three re-checks performed on the classified
phone number before it is returned. -/
def recheckPhone (phone : Str) : Except Str Str :=
  if !pyStartsWith phone (strOf "+256") then .error phoneCountryErr
  else if phone.length ≠ 13 then .error (phoneLenErr (phone.length - 4))
  else if !pyIsDigitStr (phone.drop 4) then .error phoneDigitsErr
  else .ok phone

/-- `marz.py` lines 38-68 (identical copies at 203-233 and 274-304): the
pydantic field validator `validate_phone_number`.  A raised `ValueError`
is modelled as `Except.error` carrying the message. -/
def validate_phone_number (v : Str) : Except Str Str :=
  match classifyPhone (cleanPhone v) with
  | .error e => .error e
  | .ok phone => recheckPhone phone

/-- Python `s.replace(target, repl)` (all occurrences), fuel-based so that
it reduces by `rfl`.  The empty-target interleaving behaviour of Python is
not modelled: every call site uses a non-empty target. -/
def pyReplaceAux : Nat → Str → Str → Str → Str
  | 0, s, _, _ => s
  | Nat.succ f, s, target, repl =>
    match s with
    | [] => []
    | c :: rest =>
      if pyStartsWith s target then
        repl ++ pyReplaceAux f (s.drop target.length) target repl
      else c :: pyReplaceAux f rest target repl

/-- Python `s.replace(target, repl)` for non-empty `target`. -/
def pyReplace (s target repl : Str) : Str :=
  if target.isEmpty then s else pyReplaceAux s.length s target repl

/-- Python `s.strip(chars)`: remove from both ends every character that
belongs to `cs`. -/
def pyStripChars (cs : Str) (s : Str) : Str :=
  ((s.dropWhile (fun c => cs.contains c)).reverse.dropWhile
    (fun c => cs.contains c)).reverse

/-- The opening brace character (written by code point to keep it out of
string literals). -/
def lbrace : Char := Char.ofNat 123

/-- The closing brace character. -/
def rbrace : Char := Char.ofNat 125

/-- Models CPython's `uuid.UUID(hex)` string preprocessing:
`hex.replace("urn:", "").replace("uuid:", "").strip(braces).replace("-", "")`. -/
def uuidHexOf (v : Str) : Str :=
  pyReplace
    (pyStripChars [lbrace, rbrace]
      (pyReplace (pyReplace v (strOf "urn:") []) (strOf "uuid:") []))
    (strOf "-") []

/-- A hexadecimal digit character. -/
def isHexDigitChar (c : Char) : Bool :=
  c.isDigit || ('a' ≤ c && c ≤ 'f') || ('A' ≤ c && c ≤ 'F')

/-- Models success of CPython's `uuid.UUID(v)` on a string argument: after
preprocessing, the remainder must be exactly 32 hexadecimal digits.
(`int(hex, 16)`-level tolerance of surrounding whitespace, a sign, or
underscores is not modelled; no claim depends on those inputs.) -/
def uuidParseOk (v : Str) : Bool :=
  let h := uuidHexOf v
  h.length = 32 && h.all isHexDigitChar

/-- Error message of the UUID-parse failure branch (`marz.py` line 76). -/
def refParseErr : Str :=
  strOf "Reference must be a valid UUID v4 format"

/-- Error message of the length check (`marz.py` line 78). -/
def refLenErr : Str :=
  strOf "Reference must not exceed 50 characters"

/-- `marz.py` lines 70-79 (identical copies at 235-244 and 306-315): the
pydantic field validator `validate_reference`: `uuid.UUID(v)` must succeed
(else `ValueError`), then `len(v) <= 50` is required, and `v` is returned
unchanged. -/
def validate_reference (v : Str) : Except Str Str :=
  if uuidParseOk v then
    if v.length > 50 then .error refLenErr
    else .ok v
  else .error refParseErr

/-- `marz.py` lines 26-28: the pydantic `amount` field constraints
`ge=500, le=10_000_000`.  An out-of-range amount is a pydantic validation
failure; the messages model pydantic's bound reports. -/
def validate_amount (a : Int) : Except Str Int :=
  if a < 500 then .error (strOf "Input should be greater than or equal to 500")
  else if a > 10000000 then .error (strOf "Input should be less than or equal to 10000000")
  else .ok a

/-! ## JSON values and `json.loads`

The upstream HTTP responses are parsed by `response.json()` (Python's
`json.loads`).  We model JSON values and an executable parser.  Restrictions
of the model, none of which any claim depends on: numbers are integers
(floats and exponents are rejected), `\uXXXX` string escapes are rejected,
and leading zeros in numerals are not rejected. -/

inductive Json where
  | null
  | bool (b : Bool)
  | num (n : Int)
  | str (s : Str)
  | arr (items : List Json)
  | obj (members : List (Str × Json))

/-- JSON insignificant whitespace. -/
def isJsonWs (c : Char) : Bool :=
  c = ' ' || c = '\n' || c = '\t' || c = '\r'

def skipWs (s : Str) : Str := s.dropWhile isJsonWs

/-- Decoding of a two-character string escape. -/
def escChar (e : Char) : Option Char :=
  if e = '"' then some '"'
  else if e = '\\' then some '\\'
  else if e = '/' then some '/'
  else if e = 'n' then some '\n'
  else if e = 't' then some '\t'
  else if e = 'r' then some '\r'
  else if e = 'b' then some (Char.ofNat 8)
  else if e = 'f' then some (Char.ofNat 12)
  else none

/-- Parse the body of a JSON string after the opening quote; returns the
decoded content and the remainder after the closing quote. -/
def parseStrBody : Str → Option (Str × Str)
  | [] => none
  | c :: rest =>
    if c = '"' then some ([], rest)
    else if c = '\\' then
      match rest with
      | [] => none
      | e :: rest2 =>
        match escChar e with
        | some d => (parseStrBody rest2).map (fun p => (d :: p.1, p.2))
        | none => none
    else if c.toNat < 32 then none
    else (parseStrBody rest).map (fun p => (c :: p.1, p.2))

def digitsToNat (ds : Str) : Nat :=
  ds.foldl (fun acc c => 10 * acc + (c.toNat - 48)) 0

/-- Parse a JSON integer numeral (optional minus sign, digits); floats and
exponents are rejected by the model. -/
def parseNum (s : Str) : Option (Json × Str) :=
  let neg := pyStartsWith s (strOf "-")
  let s1 := if neg then s.drop 1 else s
  let digits := s1.takeWhile Char.isDigit
  let rest := s1.dropWhile Char.isDigit
  if digits.isEmpty then none
  else if pyStartsWith rest (strOf ".") || pyStartsWith rest (strOf "e")
      || pyStartsWith rest (strOf "E") then none
  else
    let n : Int := Int.ofNat (digitsToNat digits)
    some (Json.num (if neg then -n else n), rest)

mutual

/-- Fuel-based JSON value parser (the fuel makes the mutual recursion
structural, so concrete inputs reduce by `rfl`). -/
def parseVal : Nat → Str → Option (Json × Str)
  | 0, _ => none
  | Nat.succ f, s0 =>
    match skipWs s0 with
    | [] => none
    | c :: rest =>
      if c = '"' then
        (parseStrBody rest).map (fun p => (Json.str p.1, p.2))
      else if c = lbrace then
        match skipWs rest with
        | d :: rest2 =>
          if d = rbrace then some (Json.obj [], rest2)
          else parseObjMembers f (skipWs rest) []
        | [] => none
      else if c = '[' then
        match skipWs rest with
        | d :: rest2 =>
          if d = ']' then some (Json.arr [], rest2)
          else parseArrItems f (skipWs rest) []
        | [] => none
      else if pyStartsWith (c :: rest) (strOf "null") then
        some (Json.null, (c :: rest).drop 4)
      else if pyStartsWith (c :: rest) (strOf "true") then
        some (Json.bool true, (c :: rest).drop 4)
      else if pyStartsWith (c :: rest) (strOf "false") then
        some (Json.bool false, (c :: rest).drop 5)
      else parseNum (c :: rest)

/-- Members of a JSON object after the opening brace (at least one member). -/
def parseObjMembers : Nat → Str → List (Str × Json) → Option (Json × Str)
  | 0, _, _ => none
  | Nat.succ f, s, acc =>
    match skipWs s with
    | [] => none
    | c :: rest =>
      if c = '"' then
        match parseStrBody rest with
        | none => none
        | some (key, rest2) =>
          match skipWs rest2 with
          | ':' :: rest3 =>
            match parseVal f rest3 with
            | none => none
            | some (v, rest4) =>
              match skipWs rest4 with
              | ',' :: rest5 => parseObjMembers f rest5 (acc ++ [(key, v)])
              | d :: rest5 =>
                if d = rbrace then some (Json.obj (acc ++ [(key, v)]), rest5)
                else none
              | [] => none
          | _ => none
      else none

/-- Items of a JSON array after the opening bracket (at least one item). -/
def parseArrItems : Nat → Str → List Json → Option (Json × Str)
  | 0, _, _ => none
  | Nat.succ f, s, acc =>
    match parseVal f s with
    | none => none
    | some (v, rest) =>
      match skipWs rest with
      | ',' :: rest2 => parseArrItems f rest2 (acc ++ [v])
      | ']' :: rest2 => some (Json.arr (acc ++ [v]), rest2)
      | _ => none

end

/-- Models Python `json.loads` (as invoked by httpx `response.json()`):
parse one value, allowing only whitespace around it.  The fuel
`2 * length + 2` dominates the recursion depth, which is bounded by twice
the number of consumed characters. -/
def pyJsonLoads (s : Str) : Option Json :=
  match parseVal (2 * s.length + 2) s with
  | some (j, rest) => if (skipWs rest).isEmpty then some j else none
  | none => none

/-! ## The outbound call and the error-translation layer

`marz.py` wraps every outbound call in the same `try/except` ladder
(lines 125-148, 155-177, 354-380, 392-417, 434-459, 519-545, 568-593,
611-636).  The outcome of the single `httpx` call is either an HTTP
response (any status code) or a transport failure (`httpx.RequestError`,
which also covers timeouts). -/

inductive UpstreamOutcome where
  | response (statusCode : Nat) (content : Str)
  | transportError (msg : Str)

/-- What the route handler produces, as observed by the caller:
  * `success body` — the upstream 2xx JSON body returned verbatim;
  * `httpException sc detail` — `raise HTTPException(status_code=sc, detail=detail)`;
  * `unhandledException msg` — an exception escaped every `except` clause of
    the handler (FastAPI then responds 500 "Internal Server Error");
  * `validationError msg` — pydantic rejected the request body before the
    handler body ran (FastAPI responds 422). -/
inductive GatewayResult where
  | success (body : Json)
  | httpException (statusCode : Nat) (detail : Json)
  | unhandledException (msg : Str)
  | validationError (msg : Str)

/-- httpx `response.is_success`: `raise_for_status()` raises
`HTTPStatusError` exactly when the status is outside 200-299. -/
def is2xx (sc : Nat) : Bool := 200 ≤ sc && sc < 300

/-- Model of `str(e)` for an `httpx.HTTPStatusError` (the exact human
text is irrelevant to every claim; only the wrapping shape matters). -/
def httpStatusErrorStr (sc : Nat) : Str :=
  strOf ("HTTP status error for status code " ++ toString sc)

/-- Model of `str(e)` for a `json.JSONDecodeError`. -/
def jsonDecodeErrMsg : Str := strOf "Expecting value"

/-- Detail built by the `except httpx.RequestError` clause. -/
def transportDetail (msg : Str) : Json :=
  Json.obj [(strOf "error", Json.str (strOf "Failed to connect to Marz Pay API")),
            (strOf "message", Json.str msg)]

/-- Detail built by the `except Exception` clause. -/
def unexpectedDetail (msg : Str) : Json :=
  Json.obj [(strOf "error", Json.str (strOf "An unexpected error occurred")),
            (strOf "message", Json.str msg)]

/-- Detail built by the `except httpx.HTTPStatusError` clause when the
response body is empty: `{"error": str(e)}`. -/
def emptyBodyDetail (sc : Nat) : Json :=
  Json.obj [(strOf "error", Json.str (httpStatusErrorStr sc))]

/-- The `try/except` ladder shared by all gateway handlers, applied to the
outcome of the single outbound call:
  * 2xx: `return response.json()`; if the 2xx body fails to parse, the
    `json.JSONDecodeError` is caught by `except Exception` → HTTP 500 with
    the generic wrapped detail;
  * non-2xx: `raise_for_status()` raises, and the `except
    httpx.HTTPStatusError` clause runs
    `error_detail = e.response.json() if e.response.content else ...`.
    Note that when the body is non-empty but unparseable, the
    `JSONDecodeError` raised by `e.response.json()` occurs INSIDE the
    `except` clause, so the later `except` clauses of the same `try` do not
    apply and the exception escapes the handler;
  * transport error: HTTP 503 with the fixed detail. -/
def handleUpstream (res : UpstreamOutcome) : GatewayResult :=
  match res with
  | .transportError msg => .httpException 503 (transportDetail msg)
  | .response sc content =>
    if is2xx sc then
      match pyJsonLoads content with
      | some j => .success j
      | none => .httpException 500 (unexpectedDetail jsonDecodeErrMsg)
    else
      if !content.isEmpty then
        match pyJsonLoads content with
        | some j => .httpException sc j
        | none => .unhandledException jsonDecodeErrMsg
      else .httpException sc (emptyBodyDetail sc)

/-! ## The request models and the form payload -/

/-- The raw field values of an inbound request body, before pydantic
validation (`marz.py` lines 22-36; `SendMoneyRequest` at 266-272 has the
same fields and validators). -/
structure RawCollectionRequest where
  phone_number : Str
  amount : Int
  country : Str
  reference : Str
  description : Option Str
  callback_url : Option Str

/-- A validated `CollectionRequest` model instance: the phone number is the
validator's normalized return value and the reference the validated one. -/
structure CollectionRequest where
  phone_number : Str
  amount : Int
  country : Str
  reference : Str
  description : Option Str
  callback_url : Option Str

/-- Pydantic `max_length=255` constraint on the optional `description` and
`callback_url` fields. -/
def validate_optional_len255 (o : Option Str) : Except Str (Option Str) :=
  match o with
  | none => .ok none
  | some s =>
    if s.length > 255 then .error (strOf "String should have at most 255 characters")
    else .ok (some s)

/-- Pydantic validation of the request body, in field order.  (Pydantic
collects the errors of all invalid fields; the model reports the first,
which suffices for the claims, all of which only distinguish success from
failure.) -/
def validateCollectionRequest (r : RawCollectionRequest) :
    Except Str CollectionRequest :=
  match validate_phone_number r.phone_number with
  | .error e => .error e
  | .ok p =>
    match validate_amount r.amount with
    | .error e => .error e
    | .ok a =>
      match validate_reference r.reference with
      | .error e => .error e
      | .ok ref =>
        match validate_optional_len255 r.description with
        | .error e => .error e
        | .ok d =>
          match validate_optional_len255 r.callback_url with
          | .error e => .error e
          | .ok cb => .ok ⟨p, a, r.country, ref, d, cb⟩

/-- Python truthiness of an `Optional[str]` field: `None` and the empty
string are falsy. -/
def pyTruthyOptStr : Option Str → Bool
  | none => false
  | some s => !s.isEmpty

/-- The outbound form payload, `marz.py` lines 113-123 (identical copies at
342-352 for `create_collection` and 507-517 for `send_money`): the four
mandatory fields, then `description` and `callback_url` added only when
truthy (`if collection.description: ...`). -/
def buildFormData (c : CollectionRequest) : List (Str × Str) :=
  [ (strOf "phone_number", c.phone_number),
    (strOf "amount", strOf (toString c.amount)),
    (strOf "country", c.country),
    (strOf "reference", c.reference) ]
  ++ (if pyTruthyOptStr c.description then
        [(strOf "description", c.description.getD [])] else [])
  ++ (if pyTruthyOptStr c.callback_url then
        [(strOf "callback_url", c.callback_url.getD [])] else [])

/-- The `initialize` endpoint (`marz.py` lines 108-148; `create_collection`
at 336-380 and `send_money` at 498-545 differ only in the upstream path and
the overridable auth header).  `net` is the outbound-call oracle: FastAPI
runs the pydantic validators before the handler body, so the handler — and
with it the network call — runs only on a validated model instance. -/
def initializeHandler (net : List (Str × Str) → UpstreamOutcome)
    (r : RawCollectionRequest) : GatewayResult :=
  match validateCollectionRequest r with
  | .error e => .validationError e
  | .ok c => handleUpstream (net (buildFormData c))

/-! ## The webhook handlers

The two webhook endpoints take `payload: dict` and build dict displays.
Python values are modelled far enough to capture hashability: dicts, lists
and sets are unhashable, so using one as a set element or a dict key raises
`TypeError` when the display is evaluated. -/

inductive PyVal where
  | none
  | bool (b : Bool)
  | int (n : Int)
  | str (s : Str)
  | list (xs : List PyVal)
  | dict (entries : List (PyVal × PyVal))
  | set (xs : List PyVal)

/-- Whether a Python value is hashable (usable as a dict key or set
element). -/
def PyVal.hashable : PyVal → Bool
  | .list _ => false
  | .dict _ => false
  | .set _ => false
  | _ => true

/-- The `TypeError` raised on an unhashable dict key or set element. -/
def unhashableTypeErr : Str := strOf "TypeError: unhashable type"

/-- Evaluation of a Python set display: every element must be hashable. -/
def pySetDisplay (xs : List PyVal) : Except Str PyVal :=
  if xs.all PyVal.hashable then .ok (.set xs) else .error unhashableTypeErr

/-- Evaluation of a Python dict display: every key must be hashable. -/
def pyDictDisplay (pairs : List (PyVal × PyVal)) : Except Str PyVal :=
  if (pairs.map Prod.fst).all PyVal.hashable then .ok (.dict pairs)
  else .error unhashableTypeErr

/-- The fixed acknowledgement value
`{"status": "received", "message": "Webhook processed successfully"}`. -/
def webhookAck : PyVal :=
  .dict [ (.str (strOf "status"), .str (strOf "received")),
          (.str (strOf "message"), .str (strOf "Webhook processed successfully")) ]

/-- `marz.py` lines 473-485, `POST /webhook/marz-callback`: prints the
payload and returns the fixed acknowledgement dict, for any payload. -/
def marzCallbackEndpoint (_payload : PyVal) : Except Str PyVal :=
  pyDictDisplay
    [ (.str (strOf "status"), .str (strOf "received")),
      (.str (strOf "message"), .str (strOf "Webhook processed successfully")) ]

/-- `marz.py` lines 650-655, `POST /webhook/callback`: the handler body is
`return {"status": "received", {payload}: "Webhook processed successfully"}`.
The second key is a set display whose single element is the payload dict;
dicts are unhashable, so evaluating it raises `TypeError` and the handler
never returns a response. -/
def webhookCallbackEndpoint (payload : PyVal) : Except Str PyVal := do
  let key ← pySetDisplay [payload]
  pyDictDisplay
    [ (.str (strOf "status"), .str (strOf "received")),
      (key, .str (strOf "Webhook processed successfully")) ]

/-! ## Route registration

`marz.py` registers routes on two distinct objects: `router =
APIRouter(prefix="/v1/pay")` (line 15) and a second, standalone `app =
FastAPI(...)` (line 188).  `src/main.py` builds the served application,
adds `GET /` and calls `app.include_router(marz.router)`; the second
FastAPI object of `marz.py` is never mounted. -/

structure Route where
  method : Str
  path : Str
deriving DecidableEq

/-- The decorators on `router` in `marz.py` (lines 103 and 152). -/
def marzRouterRoutes : List Route :=
  [ ⟨strOf "POST", strOf "/initialize"⟩,
    ⟨strOf "GET", strOf "/verify/\x7bcollection_uuid\x7d"⟩ ]

/-- The `prefix` argument of the `APIRouter` (line 16). -/
def routerPathBase : Str := strOf "/v1/pay"

/-- The decorators on the second, standalone `app` in `marz.py`
(lines 331, 383, 420, 462, 473, 490, 548, 596, 639, 650), in order. -/
def secondAppRoutes : List Route :=
  [ ⟨strOf "POST", strOf "/collect-money"⟩,
    ⟨strOf "GET", strOf "/collect-money/\x7bcollection_uuid\x7d"⟩,
    ⟨strOf "GET", strOf "/collect-money/services"⟩,
    ⟨strOf "GET", strOf "/health"⟩,
    ⟨strOf "POST", strOf "/webhook/marz-callback"⟩,
    ⟨strOf "POST", strOf "/send-money"⟩,
    ⟨strOf "GET", strOf "/send-money/\x7btransaction_uuid\x7d"⟩,
    ⟨strOf "GET", strOf "/send-money/services"⟩,
    ⟨strOf "GET", strOf "/health"⟩,
    ⟨strOf "POST", strOf "/webhook/callback"⟩ ]

/-- `app.include_router(router)`: each router route is added under the
router's path base. -/
def includeRouter (base : Str) (rs : List Route) : List Route :=
  rs.map (fun r => ⟨r.method, base ++ r.path⟩)

/-- The routes of the application actually served (`src/main.py`): the root
liveness route plus the included `/v1/pay` router.  The second FastAPI
object is never mounted, so its routes do not appear. -/
def servedRoutes : List Route :=
  ⟨strOf "GET", strOf "/"⟩ :: includeRouter routerPathBase marzRouterRoutes

/-- The cleaning step as the SPEC words it ("strip all characters except
digits and a leading plus sign"): a plus sign is kept only when it is the
leading character of the raw input.  This definition follows the spec's
words, for comparison against `cleanPhone`, which follows the source. -/
def cleanPhoneSpec (v : Str) : Str :=
  match v with
  | '+' :: rest => '+' :: rest.filter Char.isDigit
  | _ => v.filter Char.isDigit

/-- The status code carried by a gateway error response, when there is
one (an unhandled exception carries none: FastAPI produces a plain 500). -/
def statusCodeOf : GatewayResult → Option Nat
  | .httpException sc _ => some sc
  | _ => Option.none

/-! ## Concrete evaluations (sanity checks of the embedding) -/

example : validate_phone_number (strOf "0700000000") = .ok (strOf "+256700000000") := rfl

example : validate_phone_number (strOf "256700000000") = .ok (strOf "+256700000000") := rfl

example : validate_phone_number (strOf "700000000") = .ok (strOf "+256700000000") := rfl

example : validate_phone_number (strOf "256700000") =
    .error (phoneLenErr 6) := rfl

example : validate_phone_number (strOf "012345678") =
    .error (phoneLenErr 8) := rfl

example : validate_phone_number (strOf "0712345678+") =
    .error (phoneLenErr 10) := rfl

example : validate_reference (strOf "123e4567-e89b-12d3-a456-426614174000") =
    .ok (strOf "123e4567-e89b-12d3-a456-426614174000") := rfl

example : validate_reference (strOf "not-a-uuid") = .error refParseErr := rfl

-- A parseable UUID spelling longer than 50 characters (hyphens are removed
-- wherever they occur before the 32-hex-digit check).
example : validate_reference
    (strOf "1-2-3-4-5-6-7-8-9-a-b-c-d-e-f-0-1-2-3-4-5-6-7-8-9-a-b-c-d-e-f-0") =
    .error refLenErr := rfl

example : uuidParseOk
    (strOf "1-2-3-4-5-6-7-8-9-a-b-c-d-e-f-0-1-2-3-4-5-6-7-8-9-a-b-c-d-e-f-0") = true := rfl

example : uuidParseOk (strOf "urn:uuid:123e4567-e89b-12d3-a456-426614174000") = true := rfl

example : pyJsonLoads (strOf "\x7b\"error\":\"insufficient_funds\"\x7d") =
    some (Json.obj [(strOf "error", Json.str (strOf "insufficient_funds"))]) := rfl

example : pyJsonLoads (strOf "Bad Gateway") = none := rfl

example : pyJsonLoads (strOf " [1, -2, true, null] ") =
    some (Json.arr [Json.num 1, Json.num (-2), Json.bool true, Json.null]) := rfl

example : pyJsonLoads (strOf "\x7b\"a\": \x7b\"b\": \"c\"\x7d\x7d") =
    some (Json.obj [(strOf "a", Json.obj [(strOf "b", Json.str (strOf "c"))])]) := rfl

example : marzCallbackEndpoint (.dict []) = .ok webhookAck := rfl

example : webhookCallbackEndpoint (.dict []) = .error unhashableTypeErr := rfl

/-! ## Helper lemmas -/

theorem pyStartsWith_nil (s : Str) : pyStartsWith s [] = true := by
  cases s <;> rfl

theorem pyStartsWith_self_append (p t : Str) : pyStartsWith (p ++ t) p = true := by
  induction p with
  | nil => exact pyStartsWith_nil t
  | cons c cs ih => simp [pyStartsWith, ih]

theorem pyStartsWith_exists (s p : Str) (h : pyStartsWith s p = true) :
    ∃ t, s = p ++ t := by
  induction p generalizing s with
  | nil => exact ⟨s, rfl⟩
  | cons c cs ih =>
    cases s with
    | nil => simp [pyStartsWith] at h
    | cons a as =>
      simp only [pyStartsWith, Bool.and_eq_true, decide_eq_true_eq] at h
      obtain ⟨t, ht⟩ := ih as h.2
      exact ⟨t, by simp [h.1, ht]⟩

theorem digit_ne_plus {c : Char} (h : c.isDigit = true) : ¬(c = '+') := by
  intro e
  subst e
  exact absurd h (by decide)

theorem cleanPhone_of_all_digits (s : Str) (h : s.all Char.isDigit = true) :
    cleanPhone s = s := by
  unfold cleanPhone
  apply List.filter_eq_self.mpr
  intro a ha
  have hd := List.all_eq_true.mp h a ha
  simp [hd]

theorem pyStartsWith_plus_false_of_digits (s : Str)
    (hd : s.all Char.isDigit = true) (hne : s ≠ []) :
    pyStartsWith s (strOf "+256") = false := by
  cases s with
  | nil => exact absurd rfl hne
  | cons c cs =>
    have hc : c.isDigit = true :=
      List.all_eq_true.mp hd c (List.mem_cons_self c cs)
    simp [strOf, pyStartsWith, digit_ne_plus hc]

theorem validate_phone_eq_recheck (v phone : Str)
    (hc : classifyPhone (cleanPhone v) = .ok phone) :
    validate_phone_number v = recheckPhone phone := by
  unfold validate_phone_number
  rw [hc]

theorem validate_phone_eq_error (v e : Str)
    (hc : classifyPhone (cleanPhone v) = .error e) :
    validate_phone_number v = .error e := by
  unfold validate_phone_number
  rw [hc]

theorem recheckPhone_ok (p : Str)
    (h1 : pyStartsWith p (strOf "+256") = true)
    (h2 : p.length = 13)
    (h3 : (p.drop 4).all Char.isDigit = true) :
    recheckPhone p = .ok p := by
  have hlen : (p.drop 4).length = 9 := by
    rw [List.length_drop, h2]
  have hne : (p.drop 4).isEmpty = false := by
    cases hq : p.drop 4 with
    | nil => rw [hq] at hlen; simp at hlen
    | cons a as => rfl
  have hdig : pyIsDigitStr (p.drop 4) = true := by
    simp [pyIsDigitStr, hne, h3]
  unfold recheckPhone
  rw [h1, h2, hdig]
  simp

theorem validate_phone_of_shape (p : Str)
    (h1 : pyStartsWith p (strOf "+256") = true)
    (h2 : p.length = 13)
    (h3 : (p.drop 4).all Char.isDigit = true) :
    validate_phone_number p = .ok p := by
  obtain ⟨t, rfl⟩ := pyStartsWith_exists p (strOf "+256") h1
  have hdrop : (strOf "+256" ++ t).drop 4 = t :=
    List.drop_left (strOf "+256") t
  have hclean : cleanPhone (strOf "+256" ++ t) = strOf "+256" ++ t := by
    unfold cleanPhone
    rw [List.filter_append]
    congr 1
    refine List.filter_eq_self.mpr (fun a ha => ?_)
    have : a.isDigit = true := by
      rw [hdrop] at h3
      exact List.all_eq_true.mp h3 a ha
    simp [this]
  have hcls : classifyPhone (cleanPhone (strOf "+256" ++ t)) =
      .ok (strOf "+256" ++ t) := by
    rw [hclean]
    unfold classifyPhone
    rw [pyStartsWith_self_append]
    simp
  rw [validate_phone_eq_recheck _ _ hcls]
  exact recheckPhone_ok _ h1 h2 h3

theorem validated_phone_shape (v p : Str)
    (h : validate_phone_number v = .ok p) :
    pyStartsWith p (strOf "+256") = true ∧ p.length = 13 ∧
      (p.drop 4).all Char.isDigit = true := by
  cases hc : classifyPhone (cleanPhone v) with
  | error e =>
    rw [validate_phone_eq_error v e hc] at h
    exact absurd h (by simp)
  | ok phone =>
    rw [validate_phone_eq_recheck v phone hc] at h
    unfold recheckPhone at h
    split_ifs at h with hA hB hC
    have hp : phone = p := Except.ok.inj h
    subst hp
    refine ⟨?_, ?_, ?_⟩
    · simpa using hA
    · simpa using hB
    · have := hC
      simp only [Bool.not_eq_true', Bool.not_eq_false] at this
      simp only [pyIsDigitStr, Bool.and_eq_true] at this
      exact this.2

/-! ## The claims -/

/-- C5: every phone-number string accepted by the validator (the normalized
`phone_number` held in a validated request) begins with "+256" followed by
exactly 9 digit characters, for a total length of 13. -/
theorem C5_accepted_phone_shape (v p : Str)
    (h : validate_phone_number v = .ok p) :
    pyStartsWith p (strOf "+256") = true ∧ p.length = 13 ∧
      (p.drop 4).all Char.isDigit = true ∧ (p.drop 4).length = 9 := by
  obtain ⟨h1, h2, h3⟩ := validated_phone_shape v p h
  refine ⟨h1, h2, h3, ?_⟩
  rw [List.length_drop, h2]

/-- Witness for C5 at the concrete input "0700000000". -/
theorem C5_witness :
    pyStartsWith (strOf "+256700000000") (strOf "+256") = true ∧
    (strOf "+256700000000").length = 13 ∧
    ((strOf "+256700000000").drop 4).all Char.isDigit = true ∧
    ((strOf "+256700000000").drop 4).length = 9 :=
  C5_accepted_phone_shape (strOf "0700000000") (strOf "+256700000000") rfl

/-- C6: normalization is idempotent.  First part: on any string already of
the normalized "+256" + 9-digit shape, the validator succeeds and returns
its input unchanged.  Second part: re-validating any successful
normalization result returns that same value. -/
theorem C6_normalization_idempotent (v p : Str) :
    (pyStartsWith p (strOf "+256") = true → p.length = 13 →
      (p.drop 4).all Char.isDigit = true →
      validate_phone_number p = .ok p) ∧
    (validate_phone_number v = .ok p → validate_phone_number p = .ok p) := by
  refine ⟨fun h1 h2 h3 => validate_phone_of_shape p h1 h2 h3, fun h => ?_⟩
  obtain ⟨h1, h2, h3⟩ := validated_phone_shape v p h
  exact validate_phone_of_shape p h1 h2 h3

/-- Witness for C6 at the concrete normalized number "+256700000000". -/
theorem C6_witness :
    validate_phone_number (strOf "+256700000000") = .ok (strOf "+256700000000") :=
  (C6_normalization_idempotent (strOf "0700000000") (strOf "+256700000000")).1
    (by decide) (by decide) (by decide)

/-- C1 (code bug): for a dict payload, `POST /webhook/marz-callback` does
return the fixed acknowledgement, but `POST /webhook/callback` raises
`TypeError` — its response display uses the set `{payload}` as a dict key
and dicts are unhashable — so it never returns the acknowledgement the
claim (and the spec's interface section) describes. -/
theorem C1_webhook_handlers (entries : List (PyVal × PyVal)) :
    marzCallbackEndpoint (.dict entries) = .ok webhookAck ∧
    webhookCallbackEndpoint (.dict entries) = .error unhashableTypeErr :=
  ⟨rfl, rfl⟩

/-- C9: the served application exposes exactly the root liveness route and
the two `/v1/pay` routes; none of the routes registered on the second,
never-mounted FastAPI object is reachable through it. -/
theorem C9_served_route_surface :
    servedRoutes = [ ⟨strOf "GET", strOf "/"⟩,
      ⟨strOf "POST", strOf "/v1/pay/initialize"⟩,
      ⟨strOf "GET", strOf "/v1/pay/verify/\x7bcollection_uuid\x7d"⟩ ] ∧
    secondAppRoutes.all (fun r => !servedRoutes.contains r) = true :=
  ⟨rfl, rfl⟩

/-- C3 counterexample: "256700000" consists of exactly 9 digits, yet the
validator does not return "+256256700000" — the input matches the
"256"-prefix branch first, is normalized to "+256700000" (10 characters)
and rejected by the length re-check. -/
theorem C3_counterexample :
    (strOf "256700000").length = 9 ∧
    (strOf "256700000").all Char.isDigit = true ∧
    validate_phone_number (strOf "256700000") ≠
      .ok (strOf "+256" ++ strOf "256700000") ∧
    validate_phone_number (strOf "256700000") = .error (phoneLenErr 6) :=
  ⟨rfl, rfl, fun h => Except.noConfusion h, rfl⟩

/-- C3 (amended): a 9-digit string is normalized to "+256" + input exactly
when it does not begin with "0" and does not begin with "256"; 9-digit
strings beginning with "0" or "256" are captured by the earlier prefix
branches and rejected by the length re-check (with reported digit counts 8
and 6 respectively). -/
theorem C3_nine_digit_strings (s : Str)
    (hd : s.all Char.isDigit = true) (hl : s.length = 9) :
    (pyStartsWith s (strOf "0") = false → pyStartsWith s (strOf "256") = false →
      validate_phone_number s = .ok (strOf "+256" ++ s)) ∧
    (pyStartsWith s (strOf "0") = true →
      validate_phone_number s = .error (phoneLenErr 8)) ∧
    (pyStartsWith s (strOf "256") = true →
      validate_phone_number s = .error (phoneLenErr 6)) := by
  have hne : s ≠ [] := by
    intro e
    rw [e] at hl
    simp at hl
  have hplus : pyStartsWith s (strOf "+256") = false :=
    pyStartsWith_plus_false_of_digits s hd hne
  have hclean : cleanPhone s = s := cleanPhone_of_all_digits s hd
  have hEmp : s.isEmpty = false := by
    cases s with
    | nil => exact absurd rfl hne
    | cons a as => rfl
  refine ⟨?_, ?_, ?_⟩
  · intro h0 h256
    have hcls : classifyPhone (cleanPhone s) = .ok (strOf "+256" ++ s) := by
      rw [hclean]
      unfold classifyPhone
      rw [hplus, h256, h0, hl]
      simp
    rw [validate_phone_eq_recheck _ _ hcls]
    apply recheckPhone_ok
    · exact pyStartsWith_self_append _ _
    · rw [List.length_append, hl]
      rfl
    · have hdl : (strOf "+256" ++ s).drop 4 = s := List.drop_left (strOf "+256") s
      rw [hdl]
      exact hd
  · intro h0
    have hcls : classifyPhone (cleanPhone s) =
        .ok (strOf "+256" ++ s.drop 1) := by
      rw [hclean]
      unfold classifyPhone
      rw [hplus, h0]
      have h256 : pyStartsWith s (strOf "256") = false := by
        obtain ⟨t, rfl⟩ := pyStartsWith_exists s (strOf "0") h0
        rfl
      rw [h256]
      simp
    rw [validate_phone_eq_recheck _ _ hcls]
    have hlen : (strOf "+256" ++ s.drop 1).length = 12 := by
      rw [List.length_append, List.length_drop, hl]
      rfl
    unfold recheckPhone
    rw [pyStartsWith_self_append, hlen]
    simp
  · intro h256
    have hcls : classifyPhone (cleanPhone s) = .ok ('+' :: s) := by
      rw [hclean]
      unfold classifyPhone
      rw [hplus, h256]
      simp
    rw [validate_phone_eq_recheck _ _ hcls]
    obtain ⟨t, rfl⟩ := pyStartsWith_exists s (strOf "256") h256
    have hstart : pyStartsWith ('+' :: (strOf "256" ++ t)) (strOf "+256") = true :=
      pyStartsWith_self_append (strOf "+256") t
    have hlen : ('+' :: (strOf "256" ++ t)).length = 10 := by
      rw [List.length_cons, List.length_append]
      rw [List.length_append] at hl
      omega
    unfold recheckPhone
    rw [hstart, hlen]
    simp

/-- Witness for C3 at the concrete input "700000000". -/
theorem C3_witness :
    validate_phone_number (strOf "700000000") =
      .ok (strOf "+256" ++ strOf "700000000") :=
  (C3_nine_digit_strings (strOf "700000000") (by decide) (by decide)).1
    (by decide) (by decide)

/-- C7 counterexample: on "0712345678+" the code's cleaning step keeps the
trailing plus sign (the spec-worded cleaning would drop it), and the
validator consequently rejects the input that the claimed cleaning would
have normalized to "+256712345678". -/
theorem C7_counterexample :
    cleanPhone (strOf "0712345678+") = strOf "0712345678+" ∧
    cleanPhoneSpec (strOf "0712345678+") = strOf "0712345678" ∧
    cleanPhone (strOf "0712345678+") ≠ cleanPhoneSpec (strOf "0712345678+") ∧
    validate_phone_number (strOf "0712345678+") = .error (phoneLenErr 10) ∧
    validate_phone_number (strOf "0712345678") = .ok (strOf "+256712345678") :=
  ⟨rfl, rfl, by decide, rfl, rfl⟩

/-- C7 (amended): the first step of normalization keeps all digits and ALL
plus signs, wherever they occur (a non-leading plus sign is not removed),
and classification then proceeds on the cleaned string in the stated
precedence order: "+256" prefix, then "256" prefix, then "0" prefix, then
exactly-9-digits, else failure. -/
theorem C7_cleaning_and_precedence (v c : Str) :
    (cleanPhone v = v.filter (fun ch => ch.isDigit || ch = '+')) ∧
    (validate_phone_number v =
      match classifyPhone (cleanPhone v) with
      | .error e => .error e
      | .ok phone => recheckPhone phone) ∧
    (pyStartsWith c (strOf "+256") = true → classifyPhone c = .ok c) ∧
    (pyStartsWith c (strOf "+256") = false →
      pyStartsWith c (strOf "256") = true → classifyPhone c = .ok ('+' :: c)) ∧
    (pyStartsWith c (strOf "+256") = false →
      pyStartsWith c (strOf "256") = false →
      pyStartsWith c (strOf "0") = true →
      classifyPhone c = .ok (strOf "+256" ++ c.drop 1)) ∧
    (pyStartsWith c (strOf "+256") = false →
      pyStartsWith c (strOf "256") = false →
      pyStartsWith c (strOf "0") = false → c.length = 9 →
      classifyPhone c = .ok (strOf "+256" ++ c)) ∧
    (pyStartsWith c (strOf "+256") = false →
      pyStartsWith c (strOf "256") = false →
      pyStartsWith c (strOf "0") = false → c.length ≠ 9 →
      classifyPhone c = .error phoneFormatErr) := by
  refine ⟨rfl, rfl, ?_, ?_, ?_, ?_, ?_⟩
  · intro h1
    unfold classifyPhone
    rw [h1]
    simp
  · intro h1 h2
    unfold classifyPhone
    rw [h1, h2]
    simp
  · intro h1 h2 h3
    unfold classifyPhone
    rw [h1, h2, h3]
    simp
  · intro h1 h2 h3 h4
    unfold classifyPhone
    rw [h1, h2, h3, h4]
    simp
  · intro h1 h2 h3 h4
    unfold classifyPhone
    rw [h1, h2, h3]
    simp [h4]

/-- Witness for C7: the 0-prefix branch fires on the cleaned "0712345678"
even though that string is 10 characters long. -/
theorem C7_witness :
    classifyPhone (strOf "0712345678") =
      .ok (strOf "+256" ++ (strOf "0712345678").drop 1) :=
  (C7_cleaning_and_precedence (strOf "0712345678") (strOf "0712345678")).2.2.2.2.1
    (by decide) (by decide) (by decide)

/-- C8: reference validation accepts a string iff it parses as a UUID (any
version) and is at most 50 characters long; a non-parseable string fails
with the UUID-parse error, and a parseable string longer than 50 characters
fails with the length error. -/
theorem C8_reference_validation (v : Str) :
    (validate_reference v = .ok v ↔
      (uuidParseOk v = true ∧ v.length ≤ 50)) ∧
    (uuidParseOk v = false → validate_reference v = .error refParseErr) ∧
    (uuidParseOk v = true → 50 < v.length →
      validate_reference v = .error refLenErr) := by
  refine ⟨⟨?_, ?_⟩, ?_, ?_⟩
  · intro h
    unfold validate_reference at h
    split_ifs at h with h1 h2
    exact ⟨h1, by omega⟩
  · rintro ⟨h1, h2⟩
    unfold validate_reference
    rw [if_pos h1, if_neg (by omega)]
  · intro h
    unfold validate_reference
    rw [if_neg (by simp [h])]
  · intro h1 h2
    unfold validate_reference
    rw [if_pos h1, if_pos (by omega)]

/-- Witness for C8: a plain UUID accepted; a 63-character hyphen-padded
spelling parses as a UUID but is rejected for its length. -/
theorem C8_witness :
    validate_reference (strOf "123e4567-e89b-12d3-a456-426614174000") =
      .ok (strOf "123e4567-e89b-12d3-a456-426614174000") ∧
    validate_reference
      (strOf "1-2-3-4-5-6-7-8-9-a-b-c-d-e-f-0-1-2-3-4-5-6-7-8-9-a-b-c-d-e-f-0") =
      .error refLenErr :=
  ⟨(C8_reference_validation (strOf "123e4567-e89b-12d3-a456-426614174000")).1.mpr
      ⟨by decide, by decide⟩,
    (C8_reference_validation
      (strOf "1-2-3-4-5-6-7-8-9-a-b-c-d-e-f-0-1-2-3-4-5-6-7-8-9-a-b-c-d-e-f-0")).2.2
      (by decide) (by decide)⟩

/-- A field key is present in the form payload iff the corresponding
optional field is truthy. -/
theorem mem_formKeys_desc (c : CollectionRequest) :
    ((strOf "description") ∈ (buildFormData c).map Prod.fst ↔
      pyTruthyOptStr c.description = true) ∧
    ((strOf "callback_url") ∈ (buildFormData c).map Prod.fst ↔
      pyTruthyOptStr c.callback_url = true) := by
  obtain ⟨p, a, co, ref, d, cb⟩ := c
  cases hd : pyTruthyOptStr d <;> cases hcb : pyTruthyOptStr cb <;>
    simp [buildFormData, hd, hcb] <;> decide

/-- Python truthiness of an optional string field is exactly "present and
non-empty". -/
theorem pyTruthyOptStr_iff (o : Option Str) :
    pyTruthyOptStr o = true ↔ ∃ s, o = some s ∧ s ≠ [] := by
  cases o with
  | none => simp [pyTruthyOptStr]
  | some s =>
    simp only [pyTruthyOptStr, Bool.not_eq_true', Option.some.injEq]
    constructor
    · intro h
      refine ⟨s, rfl, ?_⟩
      intro e
      rw [e] at h
      simp at h
    · rintro ⟨t, rfl, ht⟩
      cases s with
      | nil => exact absurd rfl ht
      | cons a as => rfl

/-- C10: an empty-string `description` or `callback_url` is omitted from
the outbound form exactly as when the field is absent, and a field key is
included in the form iff the field holds a non-empty string. -/
theorem C10_empty_optional_fields_omitted (c : CollectionRequest) :
    (buildFormData { c with description := some [] } =
      buildFormData { c with description := Option.none }) ∧
    (buildFormData { c with callback_url := some [] } =
      buildFormData { c with callback_url := Option.none }) ∧
    ((strOf "description") ∈ (buildFormData c).map Prod.fst ↔
      ∃ s, c.description = some s ∧ s ≠ []) ∧
    ((strOf "callback_url") ∈ (buildFormData c).map Prod.fst ↔
      ∃ s, c.callback_url = some s ∧ s ≠ []) := by
  refine ⟨rfl, rfl, ?_, ?_⟩
  · rw [(mem_formKeys_desc c).1]
    exact pyTruthyOptStr_iff c.description
  · rw [(mem_formKeys_desc c).2]
    exact pyTruthyOptStr_iff c.callback_url

/-- C2 counterexample: an upstream 400 whose body is non-empty but not
parseable as JSON is not relayed with the provider's status code — the
`JSONDecodeError` raised by `e.response.json()` inside the `except` clause
escapes the handler, so no error response carrying status 400 is built. -/
theorem C2_counterexample :
    handleUpstream (.response 400 (strOf "Bad Gateway")) =
      .unhandledException jsonDecodeErrMsg ∧
    statusCodeOf (handleUpstream (.response 400 (strOf "Bad Gateway"))) ≠
      some 400 :=
  ⟨rfl, fun h => Option.noConfusion h⟩

/-- C2 (amended): for every non-2xx upstream response, the gateway relays
the provider's status code with the parsed body as detail when the body is
non-empty and parseable, and with the wrapped generic error object when the
body is empty; when the body is non-empty and unparseable, the JSON decode
error escapes the handler as an unhandled exception and no response
carrying the provider's status is produced. -/
theorem C2_upstream_error_translation (sc : Nat) (content : Str)
    (h : is2xx sc = false) :
    handleUpstream (.response sc content) =
      (if content.isEmpty then .httpException sc (emptyBodyDetail sc)
       else
         match pyJsonLoads content with
         | some j => .httpException sc j
         | none => .unhandledException jsonDecodeErrMsg) := by
  have hred : handleUpstream (.response sc content) =
      if is2xx sc then
        match pyJsonLoads content with
        | some j => .success j
        | none => .httpException 500 (unexpectedDetail jsonDecodeErrMsg)
      else
        if !content.isEmpty then
          match pyJsonLoads content with
          | some j => .httpException sc j
          | none => .unhandledException jsonDecodeErrMsg
        else .httpException sc (emptyBodyDetail sc) := rfl
  rw [hred, h]
  cases hE : content.isEmpty <;> simp [hE]

/-- Witness for C2 at the spec's own scenario: upstream 400 with body
`{"error":"insufficient_funds"}` is relayed with the same status and body. -/
theorem C2_witness :
    handleUpstream
      (.response 400 (strOf "\x7b\"error\":\"insufficient_funds\"\x7d")) =
      .httpException 400
        (Json.obj [(strOf "error", Json.str (strOf "insufficient_funds"))]) :=
  (C2_upstream_error_translation 400
    (strOf "\x7b\"error\":\"insufficient_funds\"\x7d") (by decide)).trans rfl

/-- C4: when the phone number, amount, or reference of the inbound request
is malformed, the pipeline stops with a validation error produced before —
and independently of — the outbound network layer: the handler result is
the same for every network oracle, which is never consulted. -/
theorem C4_invalid_requests_skip_network (r : RawCollectionRequest)
    (h : (∃ e, validate_phone_number r.phone_number = .error e) ∨
         (∃ e, validate_amount r.amount = .error e) ∨
         (∃ e, validate_reference r.reference = .error e)) :
    ∃ e, ∀ net, initializeHandler net r = .validationError e := by
  have hv : ∃ e, validateCollectionRequest r = .error e := by
    unfold validateCollectionRequest
    cases hp : validate_phone_number r.phone_number with
    | error e => exact ⟨e, rfl⟩
    | ok p =>
      cases ha : validate_amount r.amount with
      | error e => exact ⟨e, rfl⟩
      | ok a =>
        cases hr : validate_reference r.reference with
        | error e => exact ⟨e, rfl⟩
        | ok ref =>
          rcases h with ⟨e, he⟩ | ⟨e, he⟩ | ⟨e, he⟩
          · rw [he] at hp
            exact Except.noConfusion hp
          · rw [he] at ha
            exact Except.noConfusion ha
          · rw [he] at hr
            exact Except.noConfusion hr
  obtain ⟨e, he⟩ := hv
  refine ⟨e, fun net => ?_⟩
  unfold initializeHandler
  rw [he]

/-- Witness for C4: a malformed phone number ("123") yields the validation
error for every network oracle. -/
theorem C4_witness :
    ∃ e, ∀ net, initializeHandler net
      ⟨strOf "123", 1000, strOf "UG",
        strOf "123e4567-e89b-12d3-a456-426614174000",
        Option.none, Option.none⟩ = .validationError e :=
  C4_invalid_requests_skip_network _ (Or.inl ⟨phoneFormatErr, rfl⟩)

end MintoGateway
